import Mathlib

/-!
Verification of the repository-state snapshot builder and prompt formatter
of git-zprompt (src/main.rs, src/color.rs).

The repository collaborator (libgit2 via the git2 crate) is modelled as a
record of query results (`Repo`); the builder and formatter functions are
shallow embeddings of the corresponding Rust functions, keeping their names.
-/

/-- Head classification, mirroring `enum HeadInfo` in src/main.rs. -/
inductive HeadInfo where
  | EmptyBranch (name : String)
  | Branch (name : String) (upstream : Option String)
  | RemoteBranch (name : String)
  | Tag (name : String)
  | Commit (hash : String)
  deriving DecidableEq

/-- Mirror of `struct CommitStat { ahead, behind }`. -/
structure CommitStat where
  ahead : Nat
  behind : Nat
  deriving DecidableEq

/-- Mirror of `struct StagingStat { modified, staged, conflict }`. -/
structure StagingStat where
  modified : Nat
  staged : Nat
  conflict : Nat
  deriving DecidableEq

/-- Mirror of `struct PromptData`. -/
structure PromptData where
  head : HeadInfo
  commit_stat : CommitStat
  staging_stat : StagingStat
  stash : Nat
  deriving DecidableEq

/-- One status entry's flags, mirroring the `git2::Status` bitflags the code
reads: `CONFLICTED`, `INDEX_NEW/MODIFIED/DELETED`, `WT_NEW/MODIFIED/DELETED`. -/
structure Status where
  conflicted : Bool
  index_new : Bool
  index_modified : Bool
  index_deleted : Bool
  wt_new : Bool
  wt_modified : Bool
  wt_deleted : Bool
  deriving DecidableEq

/-- A tag reference as seen by `tag_foreach`: the target object id, and the
short name the code obtains through `repo.find_reference(name).shorthand()`. -/
structure TagRef where
  target : Nat
  shortName : String
  deriving DecidableEq

/-- The repository collaborator: the results of every query the program
issues, collected into one record.  Object ids are modelled as `Nat`. -/
structure Repo where
  /-- `repo.is_empty()` -/
  is_empty : Bool
  /-- content of the file `<gitdir>/HEAD`, read in the empty-repo path -/
  head_file_content : String
  /-- `repo.head().shorthand()` -/
  head_shorthand : String
  /-- `repo.head().is_branch()` -/
  head_is_branch : Bool
  /-- `repo.head().is_remote()` -/
  head_is_remote : Bool
  /-- `repo.head().peel_to_commit().id()` -/
  head_commit_id : Nat
  /-- `repo.head().target().to_string()` (full hex object id) -/
  head_target_hex : String
  /-- `repo.find_branch(name, Local).upstream().ok().map(|u| u.name())` -/
  branch_upstream : String → Option String
  /-- `repo.find_branch(name, Local).get().peel_to_commit().id()` -/
  local_branch_commit_id : String → Nat
  /-- `repo.find_branch(name, Remote).get().peel_to_commit().id()` -/
  upstream_commit_id : String → Nat
  /-- `repo.graph_ahead_behind(local, upstream)` -/
  graph_ahead_behind : Nat → Nat → Nat × Nat
  /-- count of `repo.revwalk()` pushed at HEAD: commits reachable from HEAD -/
  revwalk_count : Nat
  /-- the tag references enumerated by `repo.tag_foreach`, in iteration order -/
  tags : List TagRef
  /-- the entries of `repo.statuses(...)`, in iteration order -/
  statuses : List Status
  /-- the stash entries enumerated by `repo.stash_foreach` -/
  stashes : List Nat

/-- Embedding of `find_tag`: `tag_foreach` visits every tag (the callback
always returns `true`, so iteration never stops early) and each match
overwrites the accumulator. -/
def find_tag (tags : List TagRef) (head : Nat) : Option String :=
  tags.foldl (fun tag t => if t.target == head then some t.shortName else tag) none

/-- Embedding of `prepare_head_info`. -/
def prepare_head_info (r : Repo) : HeadInfo :=
  let head_name := r.head_shorthand
  if r.head_is_branch then
    HeadInfo.Branch head_name (r.branch_upstream head_name)
  else
    match find_tag r.tags r.head_commit_id with
    | some tag => HeadInfo.Tag tag
    | none =>
      if r.head_is_remote then HeadInfo.RemoteBranch head_name
      else HeadInfo.Commit r.head_target_hex

/-- Embedding of `prepare_commit_stat`. -/
def prepare_commit_stat (r : Repo) (head : HeadInfo) : CommitStat :=
  match head with
  | HeadInfo.Branch name upstream =>
    match upstream with
    | some upstream_name =>
      let p := r.graph_ahead_behind (r.local_branch_commit_id name)
        (r.upstream_commit_id upstream_name)
      CommitStat.mk p.1 p.2
    | none => CommitStat.mk r.revwalk_count 0
  | _ => CommitStat.mk 0 0

/-- Per-entry step of `prepare_staging_stat`'s `for_each` closure. -/
def staging_step (acc : StagingStat) (s : Status) : StagingStat :=
  if s.conflicted then
    StagingStat.mk acc.modified acc.staged (acc.conflict + 1)
  else
    let acc1 :=
      if s.index_modified || s.index_new || s.index_deleted then
        StagingStat.mk acc.modified (acc.staged + 1) acc.conflict
      else acc
    if s.wt_modified || s.wt_new || s.wt_deleted then
      StagingStat.mk (acc1.modified + 1) acc1.staged acc1.conflict
    else acc1

/-- Embedding of `prepare_staging_stat` over the enumerated status entries. -/
def prepare_staging_stat (entries : List Status) : StagingStat :=
  entries.foldl staging_step (StagingStat.mk 0 0 0)

/-- The literal pattern `"ref: refs/heads/"` stripped from the HEAD file. -/
def ref_heads_pat : List Char := "ref: refs/heads/".data

/-- Embedding of Rust `str::trim_start_matches`: repeatedly strip the pattern
from the front while it is a prefix.  Fuel-indexed structural recursion; fuel
`s.length + 1` is always enough because a non-empty pattern strips at least
one character per round. -/
def trim_start_matches_aux (pat : List Char) : Nat → List Char → List Char
  | 0, s => s
  | fuel + 1, s =>
    if pat.isPrefixOf s ∧ pat ≠ [] then
      trim_start_matches_aux pat fuel (s.drop pat.length)
    else s

/-- Rust `char::is_whitespace` (the Unicode White_Space property),
as used by `str::trim_end`. -/
def is_rust_whitespace (c : Char) : Bool :=
  let n := c.toNat
  n == 0x09 || n == 0x0A || n == 0x0B || n == 0x0C || n == 0x0D ||
  n == 0x20 || n == 0x85 || n == 0xA0 || n == 0x1680 ||
  n == 0x2000 || n == 0x2001 || n == 0x2002 || n == 0x2003 || n == 0x2004 ||
  n == 0x2005 || n == 0x2006 || n == 0x2007 || n == 0x2008 || n == 0x2009 ||
  n == 0x200A || n == 0x2028 || n == 0x2029 || n == 0x202F || n == 0x205F ||
  n == 0x3000

/-- Embedding of Rust `str::trim_end`: drop trailing whitespace characters. -/
def trim_end_chars (s : List Char) : List Char :=
  (s.reverse.dropWhile is_rust_whitespace).reverse

/-- Embedding of `get_current_branch_in_empty_repo`, as a function of the
HEAD file's content. -/
def get_current_branch_in_empty_repo (head_content : String) : String :=
  String.mk (trim_end_chars
    (trim_start_matches_aux ref_heads_pat (head_content.data.length + 1) head_content.data))

/-- Embedding of `prepare_prompt_data`. -/
def prepare_prompt_data (r : Repo) : PromptData :=
  if r.is_empty then
    PromptData.mk
      (HeadInfo.EmptyBranch (get_current_branch_in_empty_repo r.head_file_content))
      (CommitStat.mk 0 0) (StagingStat.mk 0 0 0) 0
  else
    let head := prepare_head_info r
    PromptData.mk head (prepare_commit_stat r head)
      (prepare_staging_stat r.statuses) r.stashes.length

/-- Embedding of `color::colored_str`: zsh prompt color markup. -/
def colored_str (content : String) (color : String) : String :=
  "%F" ++ "\x7b" ++ color ++ "\x7d" ++ content ++ "%f"

/-- Embedding of `color::bold_str`. -/
def bold_str (content : String) : String :=
  "%B" ++ content ++ "%b"

/-- The staging cluster string computed at the top of `print_prompt`. -/
def staging_info (s : StagingStat) : String :=
  if s.modified > 0 ∨ s.staged > 0 ∨ s.conflict > 0 then
    let opts : List (Option String) :=
      [if s.staged > 0 then some (colored_str ("🗸" ++ toString s.staged) "green") else none,
       if s.modified > 0 then some (colored_str ("•" ++ toString s.modified) "yellow") else none,
       if s.conflict > 0 then some (colored_str ("✘" ++ toString s.conflict) "red") else none]
    "(" ++ String.join (List.intersperse ", " (opts.filterMap id)) ++ ")"
  else ""

/-- The parenthesized ahead/behind suffix printed after a branch head. -/
def ahead_behind_suffix (c : CommitStat) : String :=
  if c.ahead > 0 ∨ c.behind > 0 then
    " (" ++ (if c.ahead > 0 then toString c.ahead ++ "↑" else "")
      ++ (if c.behind > 0 then (if c.ahead > 0 then ", " else "") ++ toString c.behind ++ "↓"
          else "")
      ++ ")"
  else ""

/-- Rust byte-range slicing `&s[0..=b]`: `none` models the panic when the
range exceeds the string (the hash is ASCII hex, so bytes are characters). -/
def rust_slice_to_inclusive (s : String) (b : Nat) : Option String :=
  if b + 1 ≤ s.data.length then some (String.mk (s.data.take (b + 1))) else none

/-- The head-specific body written by `print_prompt` after the stash segment
(`none` models a slicing panic in the `Commit` arm). -/
def head_body (d : PromptData) : Option String :=
  match d.head with
  | HeadInfo.Branch name upstream =>
    some (bold_str (colored_str name "green") ++ staging_info d.staging_stat ++ " -> "
      ++ bold_str (colored_str (upstream.getD "∅") "red") ++ ahead_behind_suffix d.commit_stat)
  | HeadInfo.RemoteBranch name =>
    some (bold_str (colored_str name "red") ++ staging_info d.staging_stat)
  | HeadInfo.Tag name =>
    some ("🔖" ++ bold_str (colored_str name "blue") ++ staging_info d.staging_stat)
  | HeadInfo.Commit hash =>
    (rust_slice_to_inclusive hash 12).map
      (fun pre => "Commit " ++ bold_str (colored_str pre "blue") ++ staging_info d.staging_stat)
  | HeadInfo.EmptyBranch name =>
    some (bold_str (colored_str name "green") ++ " " ++ colored_str "(empty repo)" "red")

/-- The stash segment written first by `print_prompt`. -/
def stash_segment (stash : Nat) : String :=
  if stash > 0 then "🚧" ++ toString stash ++ " " else ""

/-- Embedding of `print_prompt` as the full string written to stdout. -/
def print_prompt (d : PromptData) : Option String :=
  (head_body d).map (fun body => stash_segment d.stash ++ body)

/-- The staging cluster entries as the spec describes them: for each strictly
positive count, in the fixed order staged, modified, conflict, the glyph
concatenated with the count, each in its fixed color. -/
def cluster_entries (s : StagingStat) : List String :=
  (if s.staged > 0 then [colored_str ("🗸" ++ toString s.staged) "green"] else [])
    ++ (if s.modified > 0 then [colored_str ("•" ++ toString s.modified) "yellow"] else [])
    ++ (if s.conflict > 0 then [colored_str ("✘" ++ toString s.conflict) "red"] else [])

/-- A status entry with every flag set, for concrete instantiations. -/
def status_all_flags : Status := Status.mk true true true true true true true

/-- An empty repository whose collaborator record nevertheless reports dirty
statuses and stashes, to exhibit the short-circuit. -/
def sample_empty_repo : Repo :=
  Repo.mk true "ref: refs/heads/dev\n" "x" true true 0 "" (fun _ => some "u")
    (fun _ => 0) (fun _ => 0) (fun _ _ => (9, 9)) 42 [TagRef.mk 0 "t"]
    [status_all_flags] [1, 2, 3]

/-- A non-empty repository whose HEAD is a local branch whose tip commit is
also tagged. -/
def sample_repo_branch_tagged : Repo :=
  Repo.mk false "" "main" true false 7 "head7hex" (fun _ => none) (fun _ => 7)
    (fun _ => 0) (fun _ _ => (0, 0)) 3 [TagRef.mk 7 "v1"] [] []

/-- A non-empty repository whose HEAD is a remote-tracking ref whose commit is
also tagged. -/
def sample_repo_tag_remote : Repo :=
  Repo.mk false "" "origin/main" false true 7 "head7hex" (fun _ => none) (fun _ => 7)
    (fun _ => 0) (fun _ _ => (0, 0)) 3 [TagRef.mk 7 "v1"] [] []

/-- A parenthesized string is never empty. -/
theorem paren_ne_empty (x : String) : ("(" ++ x ++ ")") ≠ "" := by
  intro h
  have h2 := congrArg String.length h
  rw [String.length_append, String.length_append] at h2
  have h3 : String.length "(" = 1 := rfl
  have h4 : String.length ")" = 1 := rfl
  have h5 : String.length "" = 0 := rfl
  omega

/-- C1: for every repository with no commits, the built snapshot has head
`EmptyBranch` with the pending branch name, zero commit stat, zero staging
stat and zero stash, and the result does not depend on the status entries or
stash entries at all (no status or stash query is consulted). -/
theorem c1_empty_repo_snapshot (r : Repo) (statuses2 : List Status)
    (stashes2 : List Nat) (h : r.is_empty = true) :
    prepare_prompt_data r
      = PromptData.mk
          (HeadInfo.EmptyBranch (get_current_branch_in_empty_repo r.head_file_content))
          (CommitStat.mk 0 0) (StagingStat.mk 0 0 0) 0
    ∧ prepare_prompt_data
        (Repo.mk r.is_empty r.head_file_content r.head_shorthand r.head_is_branch
          r.head_is_remote r.head_commit_id r.head_target_hex r.branch_upstream
          r.local_branch_commit_id r.upstream_commit_id r.graph_ahead_behind
          r.revwalk_count r.tags statuses2 stashes2)
      = prepare_prompt_data r := by
  constructor
  · simp [prepare_prompt_data, h]
  · simp [prepare_prompt_data, h]

/-- Witness for C1 at a concrete empty repository that reports dirty statuses
and stashes. -/
theorem c1_empty_repo_snapshot_witness :
    prepare_prompt_data sample_empty_repo
      = PromptData.mk
          (HeadInfo.EmptyBranch (get_current_branch_in_empty_repo "ref: refs/heads/dev\n"))
          (CommitStat.mk 0 0) (StagingStat.mk 0 0 0) 0
    ∧ get_current_branch_in_empty_repo "ref: refs/heads/dev\n" = "dev" :=
  ⟨(c1_empty_repo_snapshot sample_empty_repo [] [] rfl).1, by decide⟩

/-- C2: for every non-empty repository, head classification follows the fixed
precedence Branch, then Tag, then RemoteBranch, then Commit; a local branch
wins regardless of tags, and a tag match wins regardless of the remote flag. -/
theorem c2_head_precedence (r : Repo) (he : r.is_empty = false) :
    (prepare_prompt_data r).head = prepare_head_info r
    ∧ (r.head_is_branch = true →
        prepare_head_info r
          = HeadInfo.Branch r.head_shorthand (r.branch_upstream r.head_shorthand))
    ∧ (r.head_is_branch = false → ∀ t, find_tag r.tags r.head_commit_id = some t →
        prepare_head_info r = HeadInfo.Tag t)
    ∧ (r.head_is_branch = false → find_tag r.tags r.head_commit_id = none →
        r.head_is_remote = true → prepare_head_info r = HeadInfo.RemoteBranch r.head_shorthand)
    ∧ (r.head_is_branch = false → find_tag r.tags r.head_commit_id = none →
        r.head_is_remote = false → prepare_head_info r = HeadInfo.Commit r.head_target_hex) := by
  refine ⟨by simp [prepare_prompt_data, he], ?_, ?_, ?_, ?_⟩
  · intro hb
    simp [prepare_head_info, hb]
  · intro hb t ht
    simp [prepare_head_info, hb, ht]
  · intro hb ht hr
    simp [prepare_head_info, hb, ht, hr]
  · intro hb ht hr
    simp [prepare_head_info, hb, ht, hr]

/-- Witness for C2: a tagged branch tip classifies as `Branch`, and a tagged
remote-tracking HEAD classifies as `Tag`. -/
theorem c2_head_precedence_witness :
    prepare_head_info sample_repo_branch_tagged = HeadInfo.Branch "main" none
    ∧ prepare_head_info sample_repo_tag_remote = HeadInfo.Tag "v1" := by
  refine ⟨(c2_head_precedence sample_repo_branch_tagged rfl).2.1 rfl, ?_⟩
  exact (c2_head_precedence sample_repo_tag_remote rfl).2.2.1 rfl "v1" (by decide)

/-- C3 (as stated) is false: with two tags on HEAD's commit, `find_tag`
returns the second (last) one, not the first. -/
theorem c3_first_match_counterexample :
    (TagRef.mk 5 "v1").target = 5
    ∧ find_tag [TagRef.mk 5 "v1", TagRef.mk 5 "v2"] 5 ≠ some "v1"
    ∧ find_tag [TagRef.mk 5 "v1", TagRef.mk 5 "v2"] 5 = some "v2" := by
  decide

/-- The fold inside `find_tag` keeps the last match, for any accumulator. -/
theorem find_tag_foldl_last (head : Nat) :
    ∀ (tags : List TagRef) (acc : Option String),
      tags.foldl (fun tag t => if t.target == head then some t.shortName else tag) acc
        = (Option.map TagRef.shortName
            (List.find? (fun t => t.target == head) tags.reverse)).or acc := by
  intro tags
  induction tags with
  | nil => intro acc; rfl
  | cons t ts ih =>
    intro acc
    rw [List.foldl_cons, ih]
    rw [List.reverse_cons, List.find?_append]
    cases hfind : List.find? (fun t => t.target == head) ts.reverse with
    | some u => simp
    | none =>
      cases hpt : (t.target == head) with
      | true => simp [List.find?, hpt]
      | false => simp [List.find?, hpt]

/-- C3 amended: the tag search is a full pass with no early exit; the result
is the short name of the LAST tag in iteration order whose target id equals
HEAD's commit id (equivalently, the first match scanning from the end). -/
theorem c3_last_match_wins (tags : List TagRef) (head : Nat) :
    find_tag tags head
      = Option.map TagRef.shortName
          (List.find? (fun t => t.target == head) tags.reverse) := by
  rw [find_tag, find_tag_foldl_last]
  cases List.find? (fun t => t.target == head) tags.reverse with
  | none => rfl
  | some u => rfl

/-- C4: a branch head with no upstream reports ahead = full reachable-commit
count and behind = 0; every non-branch head reports 0/0. -/
theorem c4_commit_stat (r : Repo) (head : HeadInfo) :
    (∀ name, head = HeadInfo.Branch name none →
      prepare_commit_stat r head = CommitStat.mk r.revwalk_count 0)
    ∧ ((∀ name upstream, head ≠ HeadInfo.Branch name upstream) →
      prepare_commit_stat r head = CommitStat.mk 0 0) := by
  constructor
  · intro name h
    subst h
    rfl
  · intro h
    cases head with
    | Branch name upstream => exact absurd rfl (h name upstream)
    | EmptyBranch name => rfl
    | RemoteBranch name => rfl
    | Tag name => rfl
    | Commit hash => rfl

/-- Witness for C4 at a concrete repository with 3 reachable commits. -/
theorem c4_commit_stat_witness :
    prepare_commit_stat sample_repo_branch_tagged (HeadInfo.Branch "main" none)
      = CommitStat.mk 3 0
    ∧ prepare_commit_stat sample_repo_branch_tagged (HeadInfo.Tag "v1")
      = CommitStat.mk 0 0 := by
  constructor
  · exact (c4_commit_stat sample_repo_branch_tagged (HeadInfo.Branch "main" none)).1 "main" rfl
  · refine (c4_commit_stat sample_repo_branch_tagged (HeadInfo.Tag "v1")).2 ?_
    intro name upstream h
    exact HeadInfo.noConfusion h

/-- C5: a conflicted status entry bumps only the conflict counter, never the
modified or staged counters, whatever other flags it carries. -/
theorem c5_conflict_only (acc : StagingStat) (s : Status) (h : s.conflicted = true) :
    (staging_step acc s).conflict = acc.conflict + 1
    ∧ (staging_step acc s).modified = acc.modified
    ∧ (staging_step acc s).staged = acc.staged := by
  simp [staging_step, h]

/-- Witness for C5 at a conflicted entry that also carries every
index/worktree modification flag. -/
theorem c5_conflict_only_witness :
    (staging_step (StagingStat.mk 3 4 5) status_all_flags).conflict = 5 + 1
    ∧ (staging_step (StagingStat.mk 3 4 5) status_all_flags).modified = 3
    ∧ (staging_step (StagingStat.mk 3 4 5) status_all_flags).staged = 4 :=
  c5_conflict_only (StagingStat.mk 3 4 5) status_all_flags rfl

/-- C6: a non-conflicted entry carrying both an index flag and a worktree
flag bumps both the staged and the modified counters by one each. -/
theorem c6_staged_and_modified (acc : StagingStat) (s : Status)
    (h1 : s.conflicted = false)
    (h2 : (s.index_modified || s.index_new || s.index_deleted) = true)
    (h3 : (s.wt_modified || s.wt_new || s.wt_deleted) = true) :
    (staging_step acc s).staged = acc.staged + 1
    ∧ (staging_step acc s).modified = acc.modified + 1
    ∧ (staging_step acc s).conflict = acc.conflict := by
  simp [staging_step, h1, h2, h3]

/-- Witness for C6 at an entry modified both in the index and the worktree. -/
theorem c6_staged_and_modified_witness :
    (staging_step (StagingStat.mk 3 4 5)
      (Status.mk false false true false false true false)).staged = 4 + 1
    ∧ (staging_step (StagingStat.mk 3 4 5)
        (Status.mk false false true false false true false)).modified = 3 + 1
    ∧ (staging_step (StagingStat.mk 3 4 5)
        (Status.mk false false true false false true false)).conflict = 5 :=
  c6_staged_and_modified (StagingStat.mk 3 4 5)
    (Status.mk false false true false false true false) rfl rfl rfl

/-- Characterization of the staging cluster: empty exactly when all three
counts are zero, else the spec-ordered entries joined and parenthesized. -/
theorem staging_info_eq (s : StagingStat) :
    staging_info s
      = if s.staged = 0 ∧ s.modified = 0 ∧ s.conflict = 0 then ""
        else "(" ++ String.join (List.intersperse ", " (cluster_entries s)) ++ ")" := by
  by_cases hs : s.staged = 0 <;> by_cases hm : s.modified = 0 <;> by_cases hc : s.conflict = 0 <;>
    simp [staging_info, cluster_entries, hs, hm, hc, Nat.pos_iff_ne_zero]

/-- C7: the staging cluster string is empty exactly when staged, modified and
conflict are all zero; otherwise it is the positive entries, in the fixed
order staged, modified, conflict, each glyph+count in its fixed color, joined
with ", " and wrapped in one pair of parentheses. -/
theorem c7_staging_cluster (s : StagingStat) :
    (staging_info s = "" ↔ s.staged = 0 ∧ s.modified = 0 ∧ s.conflict = 0)
    ∧ (¬(s.staged = 0 ∧ s.modified = 0 ∧ s.conflict = 0) →
      staging_info s
        = "(" ++ String.join (List.intersperse ", " (cluster_entries s)) ++ ")") := by
  rw [staging_info_eq]
  by_cases h : s.staged = 0 ∧ s.modified = 0 ∧ s.conflict = 0
  · simp [h]
  · simp [h, paren_ne_empty]

/-- Witness for C7: zero counts give the empty cluster, and a concrete mixed
count renders the parenthesized ordered cluster. -/
theorem c7_staging_cluster_witness :
    staging_info (StagingStat.mk 0 0 0) = ""
    ∧ staging_info (StagingStat.mk 2 1 0)
      = "(" ++ String.join
          (List.intersperse ", " (cluster_entries (StagingStat.mk 2 1 0))) ++ ")"
    ∧ staging_info (StagingStat.mk 2 1 0)
      = "(%F\x7bgreen\x7d🗸1%f, %F\x7byellow\x7d•2%f)" := by
  refine ⟨(c7_staging_cluster (StagingStat.mk 0 0 0)).1.mpr (by decide),
    (c7_staging_cluster (StagingStat.mk 2 1 0)).2 (by decide), by decide⟩

/-- C8: for a `Commit` head with a hash of at least 13 characters, the
formatter renders the literal "Commit " followed by exactly the first 13
characters of the hash, bold and colored, then the staging cluster; the
slice of the hash stays in bounds. -/
theorem c8_commit_render (hash : String) (cs : CommitStat) (ss : StagingStat)
    (st : Nat) (h : 13 ≤ hash.length) :
    rust_slice_to_inclusive hash 12 = some (String.mk (hash.data.take 13))
    ∧ (String.mk (hash.data.take 13)).length = 13
    ∧ print_prompt (PromptData.mk (HeadInfo.Commit hash) cs ss st)
      = some (stash_segment st
          ++ ("Commit " ++ bold_str (colored_str (String.mk (hash.data.take 13)) "blue")
              ++ staging_info ss)) := by
  have hlen : 12 + 1 ≤ hash.data.length := h
  refine ⟨?_, ?_, ?_⟩
  · simp [rust_slice_to_inclusive, hlen, h]
  · show (hash.data.take 13).length = 13
    rw [List.length_take]
    omega
  · simp [print_prompt, head_body, rust_slice_to_inclusive, hlen, h]

/-- Witness for C8 at the spec's example hash. -/
theorem c8_commit_render_witness :
    rust_slice_to_inclusive "abcdef0123456789" 12 = some "abcdef0123456"
    ∧ print_prompt (PromptData.mk (HeadInfo.Commit "abcdef0123456789")
        (CommitStat.mk 0 0) (StagingStat.mk 0 0 0) 0)
      = some "Commit %B%F\x7bblue\x7dabcdef0123456%f%b" := by
  have h := c8_commit_render "abcdef0123456789" (CommitStat.mk 0 0)
    (StagingStat.mk 0 0 0) 0 (by decide)
  exact ⟨h.1.trans (by decide), h.2.2.trans (by decide)⟩

/-- C9: with stash > 0 the output is the stash glyph, the count and a
trailing space prepended to the head/staging body; with stash = 0 no stash
segment is emitted at all. -/
theorem c9_stash_first (d : PromptData) :
    (d.stash > 0 → print_prompt d
      = (head_body d).map (fun body => "🚧" ++ toString d.stash ++ " " ++ body))
    ∧ (d.stash = 0 → print_prompt d = head_body d) := by
  constructor
  · intro h
    simp [print_prompt, stash_segment, h]
  · intro h
    simp only [print_prompt, stash_segment, h]
    cases head_body d with
    | none => rfl
    | some body => rfl

/-- Witness for C9 at a tag head, with stash 2 and with stash 0. -/
theorem c9_stash_first_witness :
    print_prompt (PromptData.mk (HeadInfo.Tag "v1") (CommitStat.mk 0 0)
        (StagingStat.mk 0 0 0) 2)
      = some "🚧2 🔖%B%F\x7bblue\x7dv1%f%b"
    ∧ print_prompt (PromptData.mk (HeadInfo.Tag "v1") (CommitStat.mk 0 0)
        (StagingStat.mk 0 0 0) 0)
      = some "🔖%B%F\x7bblue\x7dv1%f%b" := by
  refine ⟨((c9_stash_first (PromptData.mk (HeadInfo.Tag "v1") (CommitStat.mk 0 0)
      (StagingStat.mk 0 0 0) 2)).1 (by decide)).trans (by decide), ?_⟩
  exact ((c9_stash_first (PromptData.mk (HeadInfo.Tag "v1") (CommitStat.mk 0 0)
    (StagingStat.mk 0 0 0) 0)).2 rfl).trans (by decide)

/-- With enough fuel, the repeated strip leaves no leading occurrence of a
non-empty pattern. -/
theorem trim_start_matches_aux_no_match (pat : List Char) (hp : pat ≠ []) :
    ∀ (fuel : Nat) (s : List Char), s.length < fuel →
      pat.isPrefixOf (trim_start_matches_aux pat fuel s) = false := by
  intro fuel
  induction fuel with
  | zero =>
    intro s hs
    exact absurd hs (Nat.not_lt_zero _)
  | succ n ih =>
    intro s hs
    simp only [trim_start_matches_aux]
    by_cases h : pat.isPrefixOf s ∧ pat ≠ []
    · rw [if_pos h]
      apply ih
      have hpre : pat <+: s := List.isPrefixOf_iff_prefix.mp h.1
      have h1 : pat.length ≤ s.length := hpre.length_le
      have h2 : 0 < pat.length := List.length_pos.mpr hp
      rw [List.length_drop]
      omega
    · rw [if_neg h]
      cases hb : pat.isPrefixOf s with
      | false => rfl
      | true => exact absurd ⟨hb, hp⟩ h

/-- Trimming trailing characters yields a prefix of the original list. -/
theorem trim_end_chars_is_pre (s : List Char) : trim_end_chars s <+: s :=
  List.rdropWhile_prefix is_rust_whitespace s

/-- The last character surviving the trailing-whitespace trim is not
whitespace. -/
theorem trim_end_chars_last_not_ws (s : List Char) (c : Char)
    (h : (trim_end_chars s).getLast? = some c) : is_rust_whitespace c = false := by
  have h2 : (s.reverse.dropWhile is_rust_whitespace).head? = some c := by
    rw [← List.getLast?_reverse]
    exact h
  have hne : s.reverse.dropWhile is_rust_whitespace ≠ [] := by
    intro hnil
    rw [hnil] at h2
    exact Option.noConfusion h2
  have h3 := List.head_dropWhile_not is_rust_whitespace s.reverse hne
  have h4 : (s.reverse.dropWhile is_rust_whitespace).head hne = c := by
    rw [List.head?_eq_head hne] at h2
    exact Option.some.inj h2
  rw [← h4]
  exact h3

/-- C10: the empty-repo branch name is the HEAD file content with every
leading occurrence of "ref: refs/heads/" removed and all trailing whitespace
trimmed; in particular it never ends in a whitespace character (such as a
newline) and never starts with the "ref: refs/heads/" pattern. -/
theorem c10_empty_branch_name (content : String) :
    get_current_branch_in_empty_repo content
      = String.mk (trim_end_chars
          (trim_start_matches_aux ref_heads_pat (content.data.length + 1) content.data))
    ∧ ((get_current_branch_in_empty_repo content).data.getLast? = some '\n' → False)
    ∧ ref_heads_pat.isPrefixOf (get_current_branch_in_empty_repo content).data = false := by
  refine ⟨rfl, ?_, ?_⟩
  · intro h
    have hws := trim_end_chars_last_not_ws
      (trim_start_matches_aux ref_heads_pat (content.data.length + 1) content.data) '\n' h
    exact absurd hws (by decide)
  · show ref_heads_pat.isPrefixOf (trim_end_chars
      (trim_start_matches_aux ref_heads_pat (content.data.length + 1) content.data)) = false
    have h1 : ref_heads_pat.isPrefixOf
        (trim_start_matches_aux ref_heads_pat (content.data.length + 1) content.data) = false :=
      trim_start_matches_aux_no_match ref_heads_pat (by decide) _ _ (Nat.lt_succ_self _)
    cases hb : ref_heads_pat.isPrefixOf (trim_end_chars
        (trim_start_matches_aux ref_heads_pat (content.data.length + 1) content.data)) with
    | false => rfl
    | true =>
      have hp2 := List.isPrefixOf_iff_prefix.mp hb
      have hp3 := hp2.trans (trim_end_chars_is_pre _)
      have hp4 := List.isPrefixOf_iff_prefix.mpr hp3
      rw [h1] at hp4
      exact Bool.noConfusion hp4

/-- Witness for C10 at a concrete HEAD file content. -/
theorem c10_empty_branch_name_witness :
    ref_heads_pat.isPrefixOf
      (get_current_branch_in_empty_repo "ref: refs/heads/main\n").data = false
    ∧ ((get_current_branch_in_empty_repo "ref: refs/heads/main\n").data.getLast?
        = some '\n' → False)
    ∧ get_current_branch_in_empty_repo "ref: refs/heads/main\n" = "main" :=
  ⟨(c10_empty_branch_name "ref: refs/heads/main\n").2.2,
   (c10_empty_branch_name "ref: refs/heads/main\n").2.1, by decide⟩
